import Mathlib

/-!
Verification development for `benchmark.py` of `gurobi-opensource-benchmark`:
a Streamlit app that runs a user-selected list of MIP solvers (Gurobi, HiGHS,
SCIP, CBC) on one uploaded model file and presents the normalized results.

Shallow embedding conventions:
* Numeric telemetry (times, gaps, objectives, counts) is modelled by `Int`;
  none of the properties verified here depend on real/floating-point
  arithmetic, only on presence/absence, propagation and ordering.
* A backend query that may raise a Python exception is modelled as
  `Except Unit α`; `.error ()` is the raised exception.
* Each `run_*` adapter takes a record of post-solve backend telemetry (what
  the solver library would answer to each query the Python code makes) and
  returns `Except Unit ResultRecord`: `.error ()` models an uncaught Python
  exception propagating out of the adapter.
* `status` fields are heterogeneous in Python (enum object / string /
  looked-up string); they are all carried as `String` labels here, which is
  faithful for everything proved below (statuses are opaque pass-through
  values).
-/

deriving instance DecidableEq for Except

/-- The normalized result dict produced by each `run_*` function:
`{"solver": ..., "time": ..., "iterations": ..., "nodes": ..., "gap": ...,
"objective": ..., "status": ...}`.  `none` is Python's `None`. -/
structure ResultRecord where
  solver : String
  time : Int
  iterations : Option Int
  nodes : Option Int
  gap : Option Int
  objective : Option Int
  status : String
deriving DecidableEq, Repr

/-- Post-solve telemetry of the python-mip/CBC backend used by `run_cbc`:
the `m.gap` and `m.objective_value` property reads (either may raise; in
python-mip `objective_value` itself yields `None` when no solution exists),
the `OptimizationStatus` value returned by `m.optimize` (carried as its
label), and the measured wall time `end - start`. -/
structure CbcBackend where
  gap : Except Unit Int
  objective_value : Except Unit (Option Int)
  optimizeStatus : String
  elapsed : Int
deriving DecidableEq, Repr

/-- `run_cbc`: builds the result dict directly from the backend properties.
There is no `try/except` in the Python function, so an exception raised by
the `m.gap` or `m.objective_value` property reads propagates to the caller. -/
def run_cbc (m : CbcBackend) : Except Unit ResultRecord :=
  match m.gap with
  | .error e => .error e
  | .ok g =>
    match m.objective_value with
    | .error e => .error e
    | .ok obj =>
      .ok
        { solver := "CBC"
          time := m.elapsed
          iterations := none
          nodes := none
          gap := some g
          objective := obj
          status := m.optimizeStatus }

/-- Post-solve telemetry of the highspy backend used by `run_highs`: the
`HighsInfo` struct fields (plain attribute reads that do not raise), the
run time, the model-status string and the version triple.  `logOutput` is
the text the solver writes to the configured log file during `h.run()`. -/
structure HighsBackend where
  simplex_iteration_count : Int
  mip_node_count : Int
  mip_gap : Int
  objective_function_value : Int
  runTime : Int
  modelStatus : String
  version : Nat × Nat × Nat
  logOutput : String
deriving DecidableEq, Repr

/-- The solver label `f"HiGHS {major}.{minor}.{patch}"`. -/
def highsLabel (v : Nat × Nat × Nat) : String :=
  "HiGHS " ++ toString v.1 ++ "." ++ toString v.2.1 ++ "." ++ toString v.2.2

/-- The normalized record `run_highs` returns; every field is a plain read
of the `HighsInfo` struct or of the `Highs` object, none of which raises. -/
def run_highs_record (h : HighsBackend) : ResultRecord :=
  { solver := highsLabel h.version
    time := h.runTime
    iterations := some h.simplex_iteration_count
    nodes := some h.mip_node_count
    gap := some h.mip_gap
    objective := some h.objective_function_value
    status := h.modelStatus }

/-- The working directory's `highs.log` entry: `none` when the file does not
exist, `some c` when it exists with contents `c`. -/
abbrev LogFile := Option String

/-- `if os.path.exists("highs.log"): os.remove("highs.log")` from
`run_highs`. -/
def removeIfExists (fs : LogFile) : LogFile :=
  match fs with
  | some _ => none
  | none => none

/-- Effect of `h.run()` on the file configured via
`h.setOptionValue("log_file", "highs.log")`: the backend's log text is
appended to whatever the file already holds (creating it when absent) —
the conservative model, under which the preceding removal is what
guarantees per-run freshness. -/
def highsWriteLog (fs : LogFile) (out : String) : LogFile :=
  match fs with
  | some old => some (old ++ out)
  | none => some out

/-- `run_highs`: removes a pre-existing `highs.log`, points the backend's
`log_file` option at that path, runs, and reads the telemetry back.
Returns the normalized record together with the working directory's
`highs.log` state after the call. -/
def run_highs (h : HighsBackend) (fs : LogFile) : ResultRecord × LogFile :=
  (run_highs_record h, highsWriteLog (removeIfExists fs) h.logOutput)

/-- Post-solve telemetry of the pyscipopt backend used by `run_pyscipopt`:
`getObjVal` and `getGap` are modelled as fallible queries (SCIP raises on
`getObjVal` when no incumbent solution exists); the remaining getters are
plain reads. -/
structure ScipBackend where
  version : String
  totalTime : Int
  nlpIterations : Int
  nnodes : Int
  getGap : Except Unit Int
  getObjVal : Except Unit Int
  status : String
deriving DecidableEq, Repr

/-- `run_pyscipopt`: only the `m.getObjVal()` call is wrapped in
`try/except` (substituting `None`); `m.getGap()` is called unprotected
inside the result dict, so an exception there propagates. -/
def run_pyscipopt (m : ScipBackend) : Except Unit ResultRecord :=
  let objval : Option Int :=
    match m.getObjVal with
    | .ok v => some v
    | .error _ => none
  match m.getGap with
  | .error e => .error e
  | .ok g =>
    .ok
    { solver := "SCIP " ++ m.version
      time := m.totalTime
      iterations := some m.nlpIterations
      nodes := some m.nnodes
      gap := some g
      objective := objval
      status := m.status }

/-- Post-solve telemetry of the gurobipy backend used by `run_gurobi`:
`MIPGap` and `ObjVal` are attribute reads that raise when no incumbent
solution exists (and are wrapped in `try/except` in the Python code);
`IterCount`, `NodeCount`, `Runtime` and the integer `Status` are plain
reads. -/
structure GurobiBackend where
  status : Nat
  mipGap : Except Unit Int
  objVal : Except Unit Int
  iterCount : Int
  nodeCount : Int
  runtime : Int
  version : Nat × Nat × Nat
deriving DecidableEq, Repr

/-- The 17-entry `statuscodes` dict of `run_gurobi`, as a partial map:
`none` models a key absent from the dict (so that indexing raises
`KeyError`). -/
def statuscodes (c : Nat) : Option String :=
  match c with
  | 1 => some "LOADED"
  | 2 => some "OPTIMAL"
  | 3 => some "INFEASIBLE"
  | 4 => some "INF_OR_UNBD"
  | 5 => some "UNBOUNDED"
  | 6 => some "CUTOFF"
  | 7 => some "ITERATION_LIMIT"
  | 8 => some "NODE_LIMIT"
  | 9 => some "TIME_LIMIT"
  | 10 => some "SOLUTION_LIMIT"
  | 11 => some "INTERRUPTED"
  | 12 => some "NUMERIC"
  | 13 => some "SUBOPTIMAL"
  | 14 => some "INPROGRESS"
  | 15 => some "USER_OBJ_LIMIT"
  | 16 => some "WORK_LIMIT"
  | 17 => some "MEM_LIMIT"
  | _ => none

/-- The solver label `f"Gurobi {version[0]}.{version[1]}.{version[2]}"`. -/
def gurobiLabel (v : Nat × Nat × Nat) : String :=
  "Gurobi " ++ toString v.1 ++ "." ++ toString v.2.1 ++ "." ++ toString v.2.2

/-- `run_gurobi`: `MIPGap` and `ObjVal` reads are each wrapped in a bare
`try/except` substituting `None`; the status is translated through
`statuscodes[m.Status]`, whose failure (a `KeyError` for a code outside
1..17) propagates out of the adapter. -/
def run_gurobi (m : GurobiBackend) : Except Unit ResultRecord :=
  let gap : Option Int :=
    match m.mipGap with
    | .ok g => some g
    | .error _ => none
  let objval : Option Int :=
    match m.objVal with
    | .ok v => some v
    | .error _ => none
  match statuscodes m.status with
  | some st =>
      .ok
        { solver := gurobiLabel m.version
          iterations := some m.iterCount
          nodes := some m.nodeCount
          objective := objval
          gap := gap
          time := m.runtime
          status := st }
  | none => .error ()

/-!
## The `__main__` solver loop

`for i, s in enumerate(solvers): if s == "Gurobi": ... results_list.append(...)`
Each selected name is dispatched by string comparison to its adapter; an
unhandled exception raised by an adapter call propagates out of the loop
(Streamlit then aborts the script run), so no later iteration executes.
The loop is parameterized by `call`, the result of the adapter invocation
`run_*(model.name, timelimit)` for each solver name: for a fixed uploaded
model and time limit this is a function of the solver name alone, since
the loop passes every adapter the same two arguments and uses the loop
index `i` only to pick the display tab.
-/

/-- The four option strings of the solver multiselect. -/
def solverNames : List String := ["Gurobi", "HiGHS", "SCIP", "CBC"]

/-- The `__main__` loop over the selected solver names: returns the
`results_list` contents together with `some ()` when an adapter call
raised (in which case the loop stopped there and later names were never
dispatched), `none` when the loop ran to completion. -/
def solverLoop (call : String → Except Unit ResultRecord) :
    List String → List ResultRecord × Option Unit
  | [] => ([], none)
  | s :: rest =>
    if s ∈ solverNames then
      match call s with
      | .error e => ([], some e)
      | .ok r =>
        (r :: (solverLoop call rest).1, (solverLoop call rest).2)
    else
      solverLoop call rest

/-!
## Output capture (`st_capture`)

State visible to the capture machinery: which stream object is currently
installed as `sys.stdout` (identified by a `Nat`, `0` being the process's
original stream), the contents of the `StringIO` buffer, and the list of
values passed so far to the caller-supplied `output_func` sink.
-/

/-- Process state relevant to `st_capture`. -/
structure CapState where
  stdoutTarget : Nat
  buffer : String
  sink : List String
deriving DecidableEq, Repr

/-- Python `with cm: body` semantics for a context manager whose
`__exit__` does not suppress exceptions: run `__enter__`, run the body
(which may raise, modelled by the `Option E` component), then run
`__exit__` on both the normal and the raising path, re-raising the body's
exception afterwards. -/
def withCM {σ α E : Type} (enter : σ → σ × α) (exitPart : α → σ → σ)
    (body : σ → Option E × σ) (s : σ) : Option E × σ :=
  let p := enter s
  let q := body p.1
  (q.1, exitPart p.2 q.2)

/-- Combined `__enter__` of `with StringIO() as stdout,
redirect_stdout(stdout):`—a fresh empty buffer is created and installed as
`sys.stdout` (its stream identifier is `captureId`); the previously
installed target is saved for restoration. -/
def stCaptureEnter (captureId : Nat) (s : CapState) : CapState × Nat :=
  ({ s with stdoutTarget := captureId, buffer := "" }, s.stdoutTarget)

/-- `redirect_stdout.__exit__`: reinstall the saved target as
`sys.stdout`, unconditionally. -/
def redirectExit (saved : Nat) (s : CapState) : CapState :=
  { s with stdoutTarget := saved }

/-- `st_capture(output_func)` wrapping a region `body`. -/
def st_capture {E : Type} (captureId : Nat)
    (body : CapState → Option E × CapState) (s : CapState) :
    Option E × CapState :=
  withCM (stCaptureEnter captureId) redirectExit body s

/-- The patched `new_write(string)` installed on the buffer: performs the
original write (appending to the buffer) and then calls
`output_func(stdout.getvalue())`, i.e. forwards the whole buffer contents
so far to the sink. -/
def new_write (s : CapState) (string : String) : CapState :=
  let b := s.buffer ++ string
  { s with buffer := b, sink := s.sink ++ [b] }

/-- A region that performs the given sequence of writes to the (captured)
standard output stream, each going through `new_write`. -/
def writes (ws : List String) (s : CapState) : CapState :=
  ws.foldl new_write s

/-!
## The results chart

`domain = results["solver"].tolist(); range = [four fixed colors]` and
`alt.Scale(domain=domain, range=range)` map the i-th solver label of the
current run's results to the i-th color of the palette.
-/

/-- The fixed color palette `range` of the chart. -/
def colorRange : List String := ["#DD2113", "green", "#1E3AC5", "#004746"]

/-- The color the Altair scale assigns to solver label `s` in a run whose
results carry the labels `domain` (in row order): the palette entry at the
label's position in `domain`. -/
def colorOf (domain : List String) (s : String) : Option String :=
  colorRange.get? (List.indexOf s domain)

/-!
## Theorems
-/

/-- A concrete normalized record, used for concrete runs of the loop model. -/
def demoRecord (name : String) : ResultRecord :=
  { solver := name, time := 1, iterations := some 0, nodes := some 0,
    gap := some 0, objective := some 7, status := "OPTIMAL" }

/-- Adapter-call results in which every solver's call succeeds. -/
def demoCall (s : String) : Except Unit ResultRecord := .ok (demoRecord s)

/-- Adapter-call results in which the CBC call succeeds and every other
call raises (e.g. a model read failure in that backend). -/
def failingGurobiCall (s : String) : Except Unit ResultRecord :=
  if s = "CBC" then .ok (demoRecord "CBC") else .error ()

theorem solverLoop_cons_ok (call : String → Except Unit ResultRecord)
    {s : String} {r : ResultRecord} (hs : s ∈ solverNames) (h : call s = .ok r)
    (rest : List String) :
    solverLoop call (s :: rest) =
      (r :: (solverLoop call rest).1, (solverLoop call rest).2) := by
  simp [solverLoop, hs, h]

theorem solverLoop_cons_error (call : String → Except Unit ResultRecord)
    {s : String} (hs : s ∈ solverNames) (h : call s = .error ())
    (rest : List String) :
    solverLoop call (s :: rest) = ([], some ()) := by
  simp [solverLoop, hs, h]

/-- C3: when every selected solver's adapter call returns, the loop
produces exactly one Result Record per selected solver, in selection
order, with no reordering, filtering or deduplication: the produced list
is literally the selection mapped through the per-solver record. -/
theorem C3_one_record_per_solver
    (call : String → Except Unit ResultRecord) (f : String → ResultRecord)
    (solvers : List String)
    (hsel : ∀ s ∈ solvers, s ∈ solverNames)
    (hok : ∀ s ∈ solvers, call s = .ok (f s)) :
    solverLoop call solvers = (solvers.map f, none) := by
  induction solvers with
  | nil => rfl
  | cons s rest ih =>
    have hs : s ∈ solverNames := hsel s (List.mem_cons_self s rest)
    have hc : call s = .ok (f s) := hok s (List.mem_cons_self s rest)
    have ih' := ih (fun t ht => hsel t (List.mem_cons_of_mem s ht))
      (fun t ht => hok t (List.mem_cons_of_mem s ht))
    simp [solverLoop, hs, hc, ih']

/-- Witness for C3: all four solvers selected, all calls succeed. -/
theorem C3_one_record_per_solver_witness :
    solverLoop demoCall solverNames = (solverNames.map demoRecord, none) :=
  C3_one_record_per_solver demoCall demoRecord solverNames
    (fun _ hs => hs) (fun _ _ => rfl)

/-- C1 counterexample: with a selection ["Gurobi", "CBC"] in which the
Gurobi adapter call raises and the CBC adapter call would succeed, the
loop produces no records at all — the CBC adapter is never executed and
contributes nothing, contradicting the claim that remaining selected
adapters still run and contribute their Result Records. -/
theorem C1_counterexample :
    failingGurobiCall "Gurobi" = .error () ∧
    failingGurobiCall "CBC" = .ok (demoRecord "CBC") ∧
    solverLoop failingGurobiCall ["Gurobi", "CBC"] = ([], some ()) :=
  ⟨rfl, rfl, rfl⟩

/-- C1 amended: an exception raised by the adapter call of one selected
solver propagates out of the loop; the run aborts there, keeping only the
records collected before the failing solver, and no later selected solver
is dispatched or contributes a record (whatever the tail of the selection
is). -/
theorem C1_failure_aborts_loop
    (call : String → Except Unit ResultRecord) (pre post : List String)
    (s : String) (hs : s ∈ solverNames) (herr : call s = .error ())
    (hpre : (solverLoop call pre).2 = none) :
    solverLoop call (pre ++ s :: post) = ((solverLoop call pre).1, some ()) := by
  induction pre with
  | nil => simp [solverLoop, hs, herr]
  | cons t rest ih =>
    by_cases ht : t ∈ solverNames
    · cases hc : call t with
      | error e =>
        exfalso
        simp [solverLoop, ht, hc] at hpre
      | ok r =>
        have hpre' : (solverLoop call rest).2 = none := by
          simpa [solverLoop, ht, hc] using hpre
        simp [solverLoop, ht, hc, ih hpre']
    · have hpre' : (solverLoop call rest).2 = none := by
        simpa [solverLoop, ht] using hpre
      simp [solverLoop, ht, ih hpre']

/-- Witness for the amended C1: selection ["CBC", "Gurobi", "SCIP"], the
CBC call succeeds, the Gurobi call raises: the loop stops after CBC's
record and SCIP never contributes. -/
theorem C1_failure_aborts_loop_witness :
    solverLoop failingGurobiCall (["CBC"] ++ "Gurobi" :: ["SCIP"]) =
      ((solverLoop failingGurobiCall ["CBC"]).1, some ()) :=
  C1_failure_aborts_loop failingGurobiCall ["CBC"] ["SCIP"] "Gurobi"
    (by decide) rfl rfl

/-- C8: the loop passes each adapter the same model path and time limit
and dispatches on the solver name alone, so for fixed adapter-call
results the selections ["HiGHS", "CBC"] and ["CBC", "HiGHS"] yield the
same record for each solver, differing only in row order. -/
theorem C8_order_independent
    (call : String → Except Unit ResultRecord) (rB rD : ResultRecord)
    (hB : call "HiGHS" = .ok rB) (hD : call "CBC" = .ok rD) :
    solverLoop call ["HiGHS", "CBC"] = ([rB, rD], none) ∧
    solverLoop call ["CBC", "HiGHS"] = ([rD, rB], none) := by
  have h1 : ("HiGHS" : String) ∈ solverNames := by decide
  have h2 : ("CBC" : String) ∈ solverNames := by decide
  constructor <;> simp [solverLoop, h1, h2, hB, hD]

/-- Witness for C8 at concrete successful adapter calls. -/
theorem C8_order_independent_witness :
    solverLoop demoCall ["HiGHS", "CBC"] =
      ([demoRecord "HiGHS", demoRecord "CBC"], none) ∧
    solverLoop demoCall ["CBC", "HiGHS"] =
      ([demoRecord "CBC", demoRecord "HiGHS"], none) :=
  C8_order_independent demoCall (demoRecord "HiGHS") (demoRecord "CBC") rfl rfl

/-- A CBC backend state on which the `m.gap` and `m.objective_value`
property reads raise (no incumbent solution). -/
def noSolutionCbc : CbcBackend :=
  { gap := .error (), objective_value := .error (),
    optimizeStatus := "OptimizationStatus.INFEASIBLE", elapsed := 1 }

/-- A SCIP backend state on which `getGap` and `getObjVal` raise. -/
def noSolutionScip : ScipBackend :=
  { version := "9.2.2", totalTime := 1, nlpIterations := 0, nnodes := 0,
    getGap := .error (), getObjVal := .error (), status := "infeasible" }

/-- C2 counterexample: the CBC adapter wraps no metric query in
`try/except`, and the SCIP adapter leaves its gap query unprotected; on a
backend state where those queries raise, the adapter call itself raises
instead of returning a record with the `None` sentinel. -/
theorem C2_counterexample :
    run_cbc noSolutionCbc = .error () ∧
    run_pyscipopt noSolutionScip = .error () :=
  ⟨rfl, rfl⟩

/-- C2 amended: metric-retrieval errors are caught and replaced by `None`
only where a `try/except` actually exists — around the Gurobi adapter's
gap and objective reads and around the SCIP adapter's objective read.
The SCIP gap query and the CBC gap/objective queries are unprotected, so
an error raised there propagates out of the adapter call.  (The HiGHS
adapter reads its metrics from the info struct, which does not raise.) -/
theorem C2_amended_metric_catching :
    (∀ (m : GurobiBackend) (st : String),
      m.mipGap = .error () → m.objVal = .error () →
      statuscodes m.status = some st →
      run_gurobi m =
        .ok { solver := gurobiLabel m.version, iterations := some m.iterCount,
              nodes := some m.nodeCount, objective := none, gap := none,
              time := m.runtime, status := st }) ∧
    (∀ (m : ScipBackend) (g : Int),
      m.getObjVal = .error () → m.getGap = .ok g →
      run_pyscipopt m =
        .ok { solver := "SCIP " ++ m.version, time := m.totalTime,
              iterations := some m.nlpIterations, nodes := some m.nnodes,
              gap := some g, objective := none, status := m.status }) ∧
    (∀ m : CbcBackend, m.gap = .error () → run_cbc m = .error ()) ∧
    (∀ m : ScipBackend, m.getGap = .error () → run_pyscipopt m = .error ()) := by
  refine ⟨?_, ?_, ?_, ?_⟩
  · intro m st hg ho hst
    simp [run_gurobi, hg, ho, hst]
  · intro m g ho hg
    simp [run_pyscipopt, hg, ho]
  · intro m hg
    simp [run_cbc, hg]
  · intro m hg
    simp [run_pyscipopt, hg]

/-- A Gurobi backend state after solving an infeasible model: status code
3, gap and objective reads raise. -/
def noIncumbentGurobi : GurobiBackend :=
  { status := 3, mipGap := .error (), objVal := .error (), iterCount := 0,
    nodeCount := 0, runtime := 1, version := (12, 0, 3) }

/-- Witness for the amended C2: the Gurobi adapter substitutes `None` for
both raising queries and still returns a record; the CBC adapter instead
propagates the error. -/
theorem C2_amended_metric_catching_witness :
    run_gurobi noIncumbentGurobi =
      .ok { solver := gurobiLabel (12, 0, 3), iterations := some 0,
            nodes := some 0, objective := none, gap := none, time := 1,
            status := "INFEASIBLE" } ∧
    run_cbc noSolutionCbc = .error () :=
  ⟨C2_amended_metric_catching.1 noIncumbentGurobi "INFEASIBLE" rfl rfl rfl,
   C2_amended_metric_catching.2.2.1 noSolutionCbc rfl⟩

/-- C7: whenever the CBC adapter returns a record, the iteration-count and
node-count fields — metrics its backend interface does not expose — are
the absent sentinel `None`, never a fabricated zero. -/
theorem C7_cbc_absent_counts (m : CbcBackend) (r : ResultRecord)
    (h : run_cbc m = .ok r) : r.iterations = none ∧ r.nodes = none := by
  cases hg : m.gap with
  | error e => simp [run_cbc, hg] at h
  | ok g =>
    cases ho : m.objective_value with
    | error e => simp [run_cbc, hg, ho] at h
    | ok obj =>
      simp [run_cbc, hg, ho] at h
      subst h
      exact ⟨rfl, rfl⟩

/-- A CBC backend state after a successful solve. -/
def okCbc : CbcBackend :=
  { gap := .ok 0, objective_value := .ok (some 7),
    optimizeStatus := "OptimizationStatus.OPTIMAL", elapsed := 1 }

/-- The record `run_cbc` produces on `okCbc`. -/
def okCbcRecord : ResultRecord :=
  { solver := "CBC", time := 1, iterations := none, nodes := none,
    gap := some 0, objective := some 7,
    status := "OptimizationStatus.OPTIMAL" }

/-- Witness for C7 at a concrete successful CBC call. -/
theorem C7_cbc_absent_counts_witness :
    okCbcRecord.iterations = none ∧ okCbcRecord.nodes = none :=
  C7_cbc_absent_counts okCbc okCbcRecord rfl

/-- C10: the `statuscodes` table of `run_gurobi` is a partial lookup
defined exactly on the integer codes 1..17; on a backend whose post-solve
status code lies outside the table, the adapter raises (`KeyError`)
instead of returning a record — even though the solve itself completed
and every other telemetry query succeeded. -/
theorem C10_partial_status_lookup :
    (∀ c : Nat, (statuscodes c).isSome ↔ 1 ≤ c ∧ c ≤ 17) ∧
    (∀ m : GurobiBackend, statuscodes m.status = none →
      run_gurobi m = .error ()) := by
  constructor
  · intro c
    rcases Nat.lt_or_ge c 18 with h | h
    · interval_cases c <;> simp [statuscodes]
    · obtain ⟨n, rfl⟩ : ∃ n, c = n + 18 := ⟨c - 18, by omega⟩
      have hn : statuscodes (n + 18) = none := rfl
      simp [hn]
  · intro m h
    simp [run_gurobi, h]

/-- A Gurobi backend state whose status code 42 is outside the table,
with every other query succeeding. -/
def badStatusGurobi : GurobiBackend :=
  { status := 42, mipGap := .ok 0, objVal := .ok 0, iterCount := 0,
    nodeCount := 0, runtime := 1, version := (12, 0, 3) }

/-- Witness for C10: status code 42 makes the adapter raise. -/
theorem C10_partial_status_lookup_witness :
    run_gurobi badStatusGurobi = .error () :=
  C10_partial_status_lookup.2 badStatusGurobi rfl

/-- C4: the `st_capture` scoped region restores `sys.stdout` to its prior
target on every exit path: for an arbitrary body — including one that
raises, modelled by the `Option E` component of its result — the state
after the region has the original standard-output target, and the body's
outcome (normal or raised exception) passes through unchanged, i.e. the
restoration happens on the raising path as well. -/
theorem C4_stdout_restored (E : Type) (captureId : Nat)
    (body : CapState → Option E × CapState) (s : CapState) :
    (st_capture captureId body s).2.stdoutTarget = s.stdoutTarget ∧
    (st_capture captureId body s).1 = (body (stCaptureEnter captureId s).1).1 :=
  ⟨rfl, rfl⟩

theorem writes_cons (w : String) (t : List String) (s : CapState) :
    writes (w :: t) s = writes t (new_write s w) := rfl

/-- Concatenation, in order, of a list of written strings. -/
def concatAll : List String → String
  | [] => ""
  | w :: t => w ++ concatAll t

theorem writes_sink_length (ws : List String) :
    ∀ s : CapState, ((writes ws s).sink).length = s.sink.length + ws.length := by
  induction ws with
  | nil => intro s; rfl
  | cons w t ih =>
    intro s
    rw [writes_cons, ih (new_write s w)]
    simp [new_write]
    omega

theorem writes_buffer (ws : List String) :
    ∀ s : CapState, (writes ws s).buffer = s.buffer ++ concatAll ws := by
  induction ws with
  | nil => intro s; simp [writes, concatAll]
  | cons w t ih =>
    intro s
    rw [writes_cons, ih (new_write s w)]
    simp [new_write, concatAll, String.append_assoc]

/-- C5: every write inside an `st_capture` region triggers exactly one
forwarding call to the sink (first conjunct: one sink call per write);
the buffer accumulates every write in production order with none dropped
(second conjunct), and — the spec's concrete scenario — a region writing
three lines makes the sink receive three values whose last holds all
three lines in order (each value being the cumulative `getvalue()`
snapshot the patched `new_write` forwards). -/
theorem C5_forwarding (E : Type) :
    (∀ (ws : List String) (s : CapState),
      ((writes ws s).sink).length = s.sink.length + ws.length) ∧
    (∀ (ws : List String) (s : CapState),
      (writes ws s).buffer = s.buffer ++ concatAll ws) ∧
    (∀ (s0 : CapState) (captureId : Nat) (w1 w2 w3 : String),
      (st_capture captureId
          (fun s => ((none : Option E), writes [w1, w2, w3] s)) s0).2.sink =
        s0.sink ++ [w1, w1 ++ w2, w1 ++ w2 ++ w3]) := by
  refine ⟨writes_sink_length, writes_buffer, ?_⟩
  intro s0 captureId w1 w2 w3
  simp [st_capture, withCM, stCaptureEnter, redirectExit, writes, new_write,
    String.empty_append, String.append_assoc]

/-- C6 counterexample: the chart's color scale pairs the current run's
solver-label list with a fixed palette positionally.  With all four
solvers selected the HiGHS label sits at index 1 and is colored
`"green"`; in a run where only HiGHS and CBC were selected the same HiGHS
label sits at index 0 and is colored `"#DD2113"` — the same solver
receives different colors depending on which other solvers were
selected. -/
theorem C6_counterexample :
    colorOf ["Gurobi 12.0.3", "HiGHS 1.11.0", "SCIP 9.2.2", "CBC"]
        "HiGHS 1.11.0" = some "green" ∧
    colorOf ["HiGHS 1.11.0", "CBC"] "HiGHS 1.11.0" = some "#DD2113" ∧
    some ("green" : String) ≠ some ("#DD2113" : String) :=
  ⟨rfl, rfl, by decide⟩

/-- C6 amended: the chart's color assignment is positional, not by solver
identity — the color a solver label receives is a function of the label's
index in the run's domain list alone, the i-th label receiving the i-th
entry of the fixed four-color palette. -/
theorem C6_positional_color (d1 d2 : List String) (s1 s2 : String)
    (h : List.indexOf s1 d1 = List.indexOf s2 d2) :
    colorOf d1 s1 = colorOf d2 s2 := by
  simp [colorOf, h]

/-- Witness for the amended C6: the HiGHS label at index 1 of one run and
the same label at index 1 of a differently-composed run get equal
colors. -/
theorem C6_positional_color_witness :
    colorOf ["Gurobi 12.0.3", "HiGHS 1.11.0", "SCIP 9.2.2", "CBC"]
        "HiGHS 1.11.0" =
      colorOf ["CBC", "HiGHS 1.11.0"] "HiGHS 1.11.0" :=
  C6_positional_color _ _ _ _ (by decide)

/-- C9: whatever `highs.log` held before (including content left over
from a previous run), `run_highs` first deletes an existing file and the
backend then recreates it, so after the call the file holds exactly the
current run's log output. -/
theorem C9_log_file_fresh (h : HighsBackend) (fs : LogFile) :
    removeIfExists fs = none ∧ (run_highs h fs).2 = some h.logOutput := by
  cases fs with
  | none => exact ⟨rfl, rfl⟩
  | some old => exact ⟨rfl, rfl⟩
